import Mathlib

/-!
A shallow embedding of the chat application in `src/index.tsx` (the `App`
component): its data model (`Message`, `ChatSession`, the session map, the
component state) and the state-transforming handlers
(`handleNewChat`, `handleThinkingModeChange`, `handleSendMessage`,
`handleBuildRequest`, and the localStorage save effect).

External effects are made explicit:
  * the outcome of the generative-AI API call is a parameter
    (`ApiOutcome` / `BuildOutcome`),
  * the result of `ensureApiKey()` is a `Bool` parameter,
  * `Date.now()` is a `Nat` parameter,
  * calls to `window.alert` are recorded in an `alerts` list on the state,
  * `window.confirm` is a `Bool` parameter,
  * `window.location.origin` is a `String` parameter.

JavaScript strings are modelled as Lean `String` (characters instead of
UTF-16 code units; identical on ASCII inputs).
-/

namespace GeminiAssistant

/-- `Message.role` from `src/index.tsx` lines 6-9: `'user' | 'model'`. -/
inductive Role where
  | user
  | model
deriving DecidableEq, Repr

/-- `interface Message` (lines 6-9). -/
structure Message where
  role : Role
  text : String
deriving DecidableEq, Repr

/-- `interface ChatSession` (lines 11-15). -/
structure ChatSession where
  id : String
  title : String
  messages : List Message
deriving DecidableEq, Repr

/-- The session map `Record<string, ChatSession>` (line 18): an ordered list
of key/value pairs, mirroring a JS object's insertion-ordered string keys. -/
abbrev SessionMap := List (String × ChatSession)

/-- JS property lookup `m[k]`: the value of the first entry with key `k`.
(JS object keys are unique, so at most one entry matches.) -/
def getSession : SessionMap → String → Option ChatSession
  | [], _ => none
  | (k', v) :: rest, k => if k' = k then some v else getSession rest k

/-- The JS object-spread update `{...prev, [k]: v}`: replace the value at `k`
in place if `k` is already a key, else append the new entry at the end. -/
def setKey : SessionMap → String → ChatSession → SessionMap
  | [], k, v => [(k, v)]
  | (k', v') :: rest, k, v =>
    if k' = k then (k, v) :: rest else (k', v') :: setKey rest k v

/-- The `App` component state used by the handlers (lines 18-28), plus an
`alerts` log recording every `window.alert(...)` call in order. -/
structure AppState where
  chatSessions : SessionMap
  activeChatId : Option String
  inputValue : String
  isLoading : Bool
  thinkingMode : Bool
  showPreview : Bool
  previewSrcDoc : Option String
  apiKeyReady : Bool
  alerts : List String
deriving DecidableEq, Repr

/-- The browser localStorage keys written by the save effect (lines 107-117). -/
structure Store where
  chatSessionsVal : Option String
  activeChatIdVal : Option String
deriving DecidableEq, Repr

/-- Whitespace characters removed by JS `String.prototype.trim` (ASCII part). -/
def isJsSpace (c : Char) : Bool :=
  c = ' ' ∨ c = '\t' ∨ c = '\n' ∨ c = '\r' ∨ c = '\x0b' ∨ c = '\x0c'

/-- `!s.trim()`: the string is empty or whitespace-only. -/
def isBlank (s : String) : Bool :=
  s.data.all isJsSpace

/-- JS truthiness of a `string | null` value: `null` and `""` are falsy. -/
def optTruthy : Option String → Bool
  | none => false
  | some s => !s.isEmpty

/-- `s.substring(0, n)` (character-based model). -/
def strTake (s : String) (n : Nat) : String :=
  ⟨s.data.take n⟩

/-- `s.length` (character-based model). -/
def strLength (s : String) : Nat :=
  s.data.length

/-- `hay.startsWith(needle)` on character lists. -/
def charsStart : List Char → List Char → Bool
  | _, [] => true
  | [], _ :: _ => false
  | c :: cs, n :: ns => c = n && charsStart cs ns

/-- `hay.includes(needle)` on character lists. -/
def containsSub : List Char → List Char → Bool
  | [], needle => needle.isEmpty
  | c :: cs, needle => charsStart (c :: cs) needle || containsSub cs needle

/-- JS `hay.includes(needle)`. -/
def containsSubstr (hay needle : String) : Bool :=
  containsSub hay.data needle.data

/-- The credential-error test shared by both catch blocks (lines 264, 359):
`errorString.includes("PERMISSION_DENIED") || errorString.includes("API key not valid")`. -/
def credentialError (errMsg : String) : Bool :=
  containsSubstr errMsg "PERMISSION_DENIED" || containsSubstr errMsg "API key not valid"

/-- Concatenation of a list of strings in order (`modelResponse += chunkText`
iterated over the whole stream). -/
def concatAll : List String → String
  | [] => ""
  | c :: cs => c ++ concatAll cs

/-- The alert text shown for credential errors (lines 265 and 360). -/
def apiKeyAlertMsg : String :=
  "There was an issue with your API Key. It might be invalid or lack the necessary permissions. Please select a valid key and try again."

/-- `handleNewChat`'s fresh session (lines 147-151). -/
def newChatSession (newId : String) : ChatSession :=
  { id := newId, title := "New Chat", messages := [] }

/-- `handleNewChat` (lines 145-157); `now` models `Date.now()`. -/
def handleNewChat (now : Nat) (s : AppState) : AppState :=
  let newId := toString now
  { s with
    chatSessions := setKey s.chatSessions newId (newChatSession newId),
    activeChatId := some newId }

/-- `handleThinkingModeChange` (lines 166-180); `confirmed` models the result
of `window.confirm`. -/
def handleThinkingModeChange (confirmed : Bool) (s : AppState) : AppState :=
  let activeMessages : Option (List Message) :=
    match s.activeChatId with
    | some cid => (getSession s.chatSessions cid).map ChatSession.messages
    | none => some []
  let stop : Bool :=
    (match activeMessages with
     | some ms => decide (0 < ms.length)
     | none => false) && !confirmed
  if stop = true then s
  else
    let s1 :=
      match s.activeChatId with
      | none => s
      | some cid =>
        if cid.isEmpty = true then s
        else
          match getSession s.chatSessions cid with
          | some sess =>
            { s with chatSessions := setKey s.chatSessions cid { sess with messages := [] } }
          | none =>
            { s with chatSessions := setKey s.chatSessions cid { id := "", title := "", messages := [] } }
    { s1 with thinkingMode := !s1.thinkingMode }

/-- Line 299: `currentInput.substring(0, 30) + (currentInput.length > 30 ? '...' : '')`. -/
def truncTitle (input : String) : String :=
  strTake input 30 ++ (if 30 < strLength input then "..." else "")

/-- The optimistic update of `handleSendMessage` (lines 294-311): compute the
new title, append the user message, clear the input, set loading. -/
def optimisticState (s : AppState) (cid : String) (sess : ChatSession) : AppState :=
  let userMessage : Message := { role := Role.user, text := s.inputValue }
  let newTitle := if sess.messages.length = 0 then truncTitle s.inputValue else sess.title
  { s with
    chatSessions := setKey s.chatSessions cid
      { sess with title := newTitle, messages := sess.messages ++ [userMessage] },
    inputValue := "",
    isLoading := true }

/-- Append one message to the session `cid` via the object-spread update
(lines 332-338 and 368-374). The `none` branch is unreachable in the handlers
(the key is always present there). -/
def appendToSession (s : AppState) (cid : String) (m : Message) : AppState :=
  match getSession s.chatSessions cid with
  | some sess =>
    { s with chatSessions := setKey s.chatSessions cid { sess with messages := sess.messages ++ [m] } }
  | none => s

/-- `currentMessages[currentMessages.length - 1] = {role: 'model', text}`
(line 345). On an empty array the JS assignment targets index `-1` and leaves
the array's elements unchanged. -/
def replaceLastMsg (ms : List Message) (text : String) : List Message :=
  match ms with
  | [] => []
  | _ :: _ => ms.dropLast ++ [{ role := Role.model, text := text }]

/-- One stream-loop update of the session map (lines 343-353). -/
def updateLast (s : AppState) (cid : String) (text : String) : AppState :=
  match getSession s.chatSessions cid with
  | some sess =>
    { s with chatSessions := setKey s.chatSessions cid { sess with messages := replaceLastMsg sess.messages text } }
  | none => s

/-- The `for await` loop of lines 340-354: `acc` is the `modelResponse`
accumulated so far, each chunk extends it and rewrites the last message. -/
def applyChunks (s : AppState) (cid : String) (acc : String) : List String → AppState
  | [] => s
  | c :: cs => applyChunks (updateLast s cid (acc ++ c)) cid (acc ++ c) cs

/-- Lines 331-354: append the empty model placeholder, then consume the whole
stream of chunks. -/
def streamSuccess (s : AppState) (cid : String) (chunks : List String) : AppState :=
  applyChunks (appendToSession s cid { role := Role.model, text := "" }) cid "" chunks

/-- The outcome of `chat.sendMessageStream` and the stream iteration:
either the full list of chunk texts, or a thrown error. On `failure`,
`consumed = none` means the error was thrown before the placeholder message
was appended (i.e. by `sendMessageStream` itself), and `consumed = some cks`
means the placeholder was appended and the chunks `cks` were consumed before
the iteration threw. -/
inductive ApiOutcome where
  | success (chunks : List String)
  | failure (consumed : Option (List String)) (errMsg : String)

/-- The catch block of `handleSendMessage` (lines 355-375): credential errors
alert, drop the key, restore the snapshot session and the input; other errors
append an in-chat error message. -/
def sendCatch (s : AppState) (cid : String) (snapshot : ChatSession) (currentInput errMsg : String) : AppState :=
  if credentialError errMsg = true then
    { s with
      alerts := s.alerts ++ [apiKeyAlertMsg],
      apiKeyReady := false,
      chatSessions := setKey s.chatSessions cid snapshot,
      inputValue := currentInput }
  else
    appendToSession s cid { role := Role.model, text := "Sorry, something went wrong. " ++ errMsg }

/-- `handleSendMessage` (lines 286-379). `keyReady` models the result of
`ensureApiKey()`. In the `getSession ... = none` case the JS code throws a
`TypeError` at line 298 (reading `.messages` of `undefined`) before any state
update, leaving the state unchanged, which the `none` branch reflects. -/
def handleSendMessage (s : AppState) (keyReady : Bool) (outcome : ApiOutcome) : AppState :=
  if isBlank s.inputValue = true ∨ s.isLoading = true ∨ optTruthy s.activeChatId = false then s
  else if keyReady = false then s
  else
    match s.activeChatId with
    | none => s
    | some cid =>
      match getSession s.chatSessions cid with
      | none => s
      | some snapshot =>
        let currentInput := s.inputValue
        let s1 := optimisticState s cid snapshot
        let r :=
          match outcome with
          | ApiOutcome.success chunks => streamSuccess s1 cid chunks
          | ApiOutcome.failure consumed errMsg =>
            let sMid :=
              match consumed with
              | none => s1
              | some cks => streamSuccess s1 cid cks
            sendCatch sMid cid snapshot currentInput errMsg
        { r with isLoading := false }

/-- The outcome of `ai.models.generateContent` in `handleBuildRequest`. -/
inductive BuildOutcome where
  | success (html : String)
  | failure (errMsg : String)

/-- Line 253: `` `<base href="${window.location.origin}">` ``. -/
def baseTag (origin : String) : String :=
  "<base href=\"" ++ origin ++ "\">"

/-- Scan `[^>]*>`: consume characters up to and including the first `>`.
Returns the consumed characters (ending in `>`) and the remainder. -/
def scanToGt : List Char → Option (List Char × List Char)
  | [] => none
  | c :: cs =>
    if c = '>' then some ([c], cs)
    else
      match scanToGt cs with
      | some (took, rest) => some (c :: took, rest)
      | none => none

/-- A word character for the regex `\b` boundary. -/
def isWordChar (c : Char) : Bool :=
  c.isAlphanum || c = '_'

/-- Match the regex `<head\b[^>]*>` at the start of the list: the literal
`<head`, a word boundary, then everything up to the first `>`. Returns the
matched characters and the remainder. (When the list ends right after
`<head` the boundary holds but `[^>]*>` cannot match, so the fallback `none`
is also correct for lists of fewer than six characters.) -/
def matchHeadAt : List Char → Option (List Char × List Char)
  | '<' :: 'h' :: 'e' :: 'a' :: 'd' :: c :: rest =>
    if isWordChar c = true then none
    else
      match scanToGt (c :: rest) with
      | some (took, after) => some ('<' :: 'h' :: 'e' :: 'a' :: 'd' :: took, after)
      | none => none
  | _ => none

/-- Leftmost match of `<head\b[^>]*>`: returns `(before, match, after)`. -/
def findHead : List Char → Option (List Char × List Char × List Char)
  | [] => none
  | c :: cs =>
    match matchHeadAt (c :: cs) with
    | some (m, rest) => some ([], m, rest)
    | none => (findHead cs).map (fun pr => (c :: pr.1, pr.2.1, pr.2.2))

/-- `` html.replace(/<head\b[^>]*>/, `$&${base}`) ``: insert `base` right
after the first match; no match leaves the string unchanged. -/
def replaceHead (l : List Char) (base : List Char) : List Char :=
  match findHead l with
  | none => l
  | some (pre, m, rest) => pre ++ m ++ base ++ rest

/-- Lines 252-256: prepend-after-head logic guarded by
`!html.includes('<base href')`. -/
def insertBaseHref (html base : String) : String :=
  if containsSubstr html "<base href" = true then html
  else ⟨replaceHead html.data base.data⟩

/-- `handleBuildRequest` (lines 229-275). `keyReady` models `ensureApiKey()`,
`origin` models `window.location.origin`. -/
def handleBuildRequest (s : AppState) (keyReady : Bool) (origin : String) (outcome : BuildOutcome) : AppState :=
  if isBlank s.inputValue = true ∨ s.isLoading = true then s
  else if keyReady = false then s
  else
    let s1 := { s with inputValue := "", isLoading := true }
    let r :=
      match outcome with
      | BuildOutcome.success generatedHtml =>
        { s1 with
          previewSrcDoc := some (insertBaseHref generatedHtml (baseTag origin)),
          showPreview := true }
      | BuildOutcome.failure errMsg =>
        if credentialError errMsg = true then
          { s1 with alerts := s1.alerts ++ [apiKeyAlertMsg], apiKeyReady := false }
        else
          { s1 with alerts := s1.alerts ++ ["Sorry, the build failed: " ++ errMsg] }
    { r with isLoading := false }

/-- Lowercase hex digit, as produced by `JSON.stringify` escapes. -/
def hexDigit (n : Nat) : String :=
  String.singleton (if n < 10 then Char.ofNat (48 + n) else Char.ofNat (87 + n))

/-- `JSON.stringify` escaping of a single character. -/
def escapeJsonChar (c : Char) : String :=
  if c = '"' then "\\\""
  else if c = '\\' then "\\\\"
  else if c = '\x08' then "\\b"
  else if c = '\t' then "\\t"
  else if c = '\n' then "\\n"
  else if c = '\x0c' then "\\f"
  else if c = '\r' then "\\r"
  else if c.toNat < 32 then "\\u00" ++ hexDigit (c.toNat / 16) ++ hexDigit (c.toNat % 16)
  else String.singleton c

/-- `JSON.stringify` of a string value. -/
def jsonString (s : String) : String :=
  "\"" ++ s.data.foldl (fun acc c => acc ++ escapeJsonChar c) "" ++ "\""

/-- Join with a separator, like `Array.prototype.join`. -/
def joinWith (sep : String) : List String → String
  | [] => ""
  | [x] => x
  | x :: y :: xs => x ++ sep ++ joinWith sep (y :: xs)

/-- `JSON.stringify` of a `Message` (property order `role`, `text`). -/
def jsonOfMessage (m : Message) : String :=
  "\x7b\"role\":" ++ (match m.role with
    | Role.user => "\"user\""
    | Role.model => "\"model\"") ++ ",\"text\":" ++ jsonString m.text ++ "\x7d"

/-- `JSON.stringify` of a `ChatSession` (property order `id`, `title`,
`messages`). -/
def jsonOfSession (sess : ChatSession) : String :=
  "\x7b\"id\":" ++ jsonString sess.id ++ ",\"title\":" ++ jsonString sess.title
    ++ ",\"messages\":[" ++ joinWith "," (sess.messages.map jsonOfMessage) ++ "]\x7d"

/-- `JSON.stringify(chatSessions)`: the whole map, keys in insertion order. -/
def serializeSessions (m : SessionMap) : String :=
  "\x7b" ++ joinWith "," (m.map (fun p => jsonString p.1 ++ ":" ++ jsonOfSession p.2)) ++ "\x7d"

/-- The save effect (lines 107-117): when not loading, the map is non-empty
and an active id is set (JS-truthy), write both localStorage keys. -/
def saveEffect (s : AppState) (st : Store) : Store :=
  if s.isLoading = false ∧ 0 < s.chatSessions.length ∧ optTruthy s.activeChatId = true then
    { chatSessionsVal := some (serializeSessions s.chatSessions),
      activeChatIdVal := s.activeChatId }
  else st

/-- Concrete session used to evaluate the handlers on explicit inputs. -/
def cexSession : ChatSession :=
  { id := "1", title := "t", messages := [{ role := Role.user, text := "old" }] }

/-- Concrete app state used to evaluate the handlers on explicit inputs. -/
def cexState : AppState :=
  { chatSessions := [("1", cexSession)], activeChatId := some "1",
    inputValue := "hi", isLoading := false, thinkingMode := false,
    showPreview := false, previewSrcDoc := none, apiKeyReady := true, alerts := [] }

/-- The state reached inside `handleSendMessage`'s `try` block at the moment
an error is thrown: before the placeholder append (`none`) or after the
placeholder and `cks` consumed chunks (`some cks`). -/
def sMidState (s : AppState) (cid : String) (snap : ChatSession) : Option (List String) → AppState
  | none => optimisticState s cid snap
  | some cks => streamSuccess (optimisticState s cid snap) cid cks

theorem getSession_setKey_self (m : SessionMap) (k : String) (v : ChatSession) :
    getSession (setKey m k v) k = some v := by
  induction m with
  | nil => simp [setKey, getSession]
  | cons p rest ih =>
    obtain ⟨k0, v0⟩ := p
    by_cases h0 : k0 = k
    · simp [setKey, h0, getSession]
    · simp [setKey, h0, getSession, ih]

theorem getSession_setKey_ne (m : SessionMap) (k k' : String) (v : ChatSession)
    (h : k' ≠ k) : getSession (setKey m k v) k' = getSession m k' := by
  induction m with
  | nil =>
    simp only [setKey, getSession]
    rw [if_neg (fun hh => h hh.symm)]
  | cons p rest ih =>
    obtain ⟨k0, v0⟩ := p
    by_cases h0 : k0 = k
    · subst h0
      simp only [setKey, if_pos rfl, getSession]
      rw [if_neg (fun hh => h hh.symm), if_neg (fun hh => h hh.symm)]
    · simp [setKey, h0, getSession, ih]

theorem setKey_of_getSession_none (m : SessionMap) (k : String) (v : ChatSession)
    (h : getSession m k = none) : setKey m k v = m ++ [(k, v)] := by
  induction m with
  | nil => simp [setKey]
  | cons p rest ih =>
    obtain ⟨k0, v0⟩ := p
    by_cases h0 : k0 = k
    · simp [getSession, h0] at h
    · simp only [getSession, h0, if_false, if_neg h0] at h
      simp [setKey, h0, ih h]

theorem getSession_none_not_mem (m : SessionMap) (k : String)
    (h : getSession m k = none) : k ∉ m.map Prod.fst := by
  induction m with
  | nil => simp
  | cons p rest ih =>
    obtain ⟨k0, v0⟩ := p
    by_cases h0 : k0 = k
    · simp [getSession, h0] at h
    · simp only [getSession, h0, if_neg h0] at h
      simp only [List.map_cons, List.mem_cons, not_or]
      exact ⟨fun hh => h0 hh.symm, ih h⟩

theorem str_append_empty (s : String) : s ++ "" = s := by
  apply String.ext
  simp

theorem str_empty_append (s : String) : "" ++ s = s := by
  apply String.ext
  simp

theorem str_append_assoc (a b c : String) : a ++ b ++ c = a ++ (b ++ c) := by
  apply String.ext
  simp

theorem replaceLastMsg_concat (base : List Message) (m0 : Message) (t : String) :
    replaceLastMsg (base ++ [m0]) t = base ++ [{ role := Role.model, text := t }] := by
  cases base with
  | nil => simp [replaceLastMsg]
  | cons b bs =>
    show replaceLastMsg (b :: (bs ++ [m0])) t = _
    simp only [replaceLastMsg]
    rw [show b :: (bs ++ [m0]) = (b :: bs) ++ [m0] from rfl, List.dropLast_concat]

theorem updateLast_getSession (s : AppState) (cid i t txt : String)
    (base : List Message) (m0 : Message)
    (h : getSession s.chatSessions cid = some ⟨i, t, base ++ [m0]⟩) :
    getSession (updateLast s cid txt).chatSessions cid
      = some ⟨i, t, base ++ [{ role := Role.model, text := txt }]⟩ := by
  simp [updateLast, h, replaceLastMsg_concat, getSession_setKey_self]

theorem applyChunks_getSession (cid : String) (chunks : List String) :
    ∀ (s : AppState) (i t acc : String) (base : List Message),
      getSession s.chatSessions cid = some ⟨i, t, base ++ [{ role := Role.model, text := acc }]⟩ →
      getSession (applyChunks s cid acc chunks).chatSessions cid
        = some ⟨i, t, base ++ [{ role := Role.model, text := acc ++ concatAll chunks }]⟩ := by
  induction chunks with
  | nil =>
    intro s i t acc base h
    simpa [applyChunks, concatAll, str_append_empty] using h
  | cons c cs ih =>
    intro s i t acc base h
    have h1 := updateLast_getSession s cid i t (acc ++ c) base { role := Role.model, text := acc } h
    have h2 := ih (updateLast s cid (acc ++ c)) i t (acc ++ c) base h1
    simpa [applyChunks, concatAll, str_append_assoc] using h2

theorem updateLast_shape (s : AppState) (cid txt : String) :
    ∃ m, updateLast s cid txt = { s with chatSessions := m } := by
  unfold updateLast
  cases h : getSession s.chatSessions cid with
  | none => exact ⟨s.chatSessions, rfl⟩
  | some sess => exact ⟨_, rfl⟩

theorem appendToSession_shape (s : AppState) (cid : String) (m : Message) :
    ∃ mp, appendToSession s cid m = { s with chatSessions := mp } := by
  unfold appendToSession
  cases h : getSession s.chatSessions cid with
  | none => exact ⟨s.chatSessions, rfl⟩
  | some sess => exact ⟨_, rfl⟩

theorem applyChunks_shape (cid : String) (chunks : List String) :
    ∀ (s : AppState) (acc : String),
      ∃ m, applyChunks s cid acc chunks = { s with chatSessions := m } := by
  induction chunks with
  | nil => intro s acc; exact ⟨s.chatSessions, rfl⟩
  | cons c cs ih =>
    intro s acc
    obtain ⟨m1, hm1⟩ := updateLast_shape s cid (acc ++ c)
    obtain ⟨m2, hm2⟩ := ih (updateLast s cid (acc ++ c)) (acc ++ c)
    refine ⟨m2, ?_⟩
    show applyChunks (updateLast s cid (acc ++ c)) cid (acc ++ c) cs = _
    rw [hm2, hm1]

theorem streamSuccess_shape (s : AppState) (cid : String) (chunks : List String) :
    ∃ m, streamSuccess s cid chunks = { s with chatSessions := m } := by
  unfold streamSuccess
  obtain ⟨m1, hm1⟩ := appendToSession_shape s cid { role := Role.model, text := "" }
  obtain ⟨m2, hm2⟩ := applyChunks_shape cid chunks (appendToSession s cid { role := Role.model, text := "" }) ""
  refine ⟨m2, ?_⟩
  rw [hm2, hm1]

theorem streamSuccess_getSession (s : AppState) (cid i t : String)
    (ms : List Message) (chunks : List String)
    (h : getSession s.chatSessions cid = some ⟨i, t, ms⟩) :
    getSession (streamSuccess s cid chunks).chatSessions cid
      = some ⟨i, t, ms ++ [{ role := Role.model, text := concatAll chunks }]⟩ := by
  unfold streamSuccess
  have happ : getSession (appendToSession s cid { role := Role.model, text := "" }).chatSessions cid
      = some ⟨i, t, ms ++ [{ role := Role.model, text := "" }]⟩ := by
    simp [appendToSession, h, getSession_setKey_self]
  have hmain := applyChunks_getSession cid chunks _ i t "" ms happ
  simpa [str_empty_append] using hmain

theorem sendMessage_success_eq (s : AppState) (cid : String) (snap : ChatSession) (chunks : List String)
    (h1 : isBlank s.inputValue = false) (h2 : s.isLoading = false)
    (h3 : s.activeChatId = some cid) (h4 : cid.isEmpty = false)
    (h5 : getSession s.chatSessions cid = some snap) :
    handleSendMessage s true (ApiOutcome.success chunks)
      = { streamSuccess (optimisticState s cid snap) cid chunks with isLoading := false } := by
  simp [handleSendMessage, h1, h2, h3, h4, h5, optTruthy]

theorem sendMessage_failure_eq (s : AppState) (cid : String) (snap : ChatSession)
    (consumed : Option (List String)) (errMsg : String)
    (h1 : isBlank s.inputValue = false) (h2 : s.isLoading = false)
    (h3 : s.activeChatId = some cid) (h4 : cid.isEmpty = false)
    (h5 : getSession s.chatSessions cid = some snap) :
    handleSendMessage s true (ApiOutcome.failure consumed errMsg)
      = { sendCatch (sMidState s cid snap consumed) cid snap s.inputValue errMsg
          with isLoading := false } := by
  cases consumed with
  | none => simp [handleSendMessage, h1, h2, h3, h4, h5, optTruthy, sMidState]
  | some cks => simp [handleSendMessage, h1, h2, h3, h4, h5, optTruthy, sMidState]

theorem scanToGt_eq : ∀ (l took rest : List Char), scanToGt l = some (took, rest) → l = took ++ rest := by
  intro l
  induction l with
  | nil => intro took rest h; simp [scanToGt] at h
  | cons c cs ih =>
    intro took rest h
    by_cases hc : c = '>'
    · simp only [scanToGt, if_pos hc] at h
      simp only [Option.some.injEq, Prod.mk.injEq] at h
      obtain ⟨rfl, rfl⟩ := h
      rfl
    · simp only [scanToGt, if_neg hc] at h
      cases hs : scanToGt cs with
      | none => rw [hs] at h; simp at h
      | some pr =>
        obtain ⟨took2, rest2⟩ := pr
        rw [hs] at h
        simp only [Option.some.injEq, Prod.mk.injEq] at h
        obtain ⟨rfl, rfl⟩ := h
        rw [show c :: cs = c :: (took2 ++ rest2) from by rw [ih took2 rest2 hs]]
        rfl

theorem matchHeadAt_eq : ∀ (l m rest : List Char), matchHeadAt l = some (m, rest) → l = m ++ rest := by
  intro l m rest h
  unfold matchHeadAt at h
  split at h
  · rename_i c cs
    by_cases hw : isWordChar c = true
    · rw [if_pos hw] at h; simp at h
    · rw [if_neg hw] at h
      cases hs : scanToGt (c :: cs) with
      | none => rw [hs] at h; simp at h
      | some pr =>
        obtain ⟨took, after⟩ := pr
        rw [hs] at h
        simp only [Option.some.injEq, Prod.mk.injEq] at h
        obtain ⟨rfl, rfl⟩ := h
        rw [show c :: cs = took ++ after from scanToGt_eq (c :: cs) took after hs]
        rfl
  · simp at h

theorem findHead_eq : ∀ (l pre m rest : List Char), findHead l = some (pre, m, rest) → l = pre ++ m ++ rest := by
  intro l
  induction l with
  | nil => intro pre m rest h; simp [findHead] at h
  | cons c cs ih =>
    intro pre m rest h
    simp only [findHead] at h
    cases hm : matchHeadAt (c :: cs) with
    | some pr =>
      obtain ⟨m0, rest0⟩ := pr
      rw [hm] at h
      simp only [Option.some.injEq, Prod.mk.injEq] at h
      obtain ⟨rfl, rfl, rfl⟩ := h
      simpa using matchHeadAt_eq _ _ _ hm
    | none =>
      rw [hm] at h
      cases hf : findHead cs with
      | none => rw [hf] at h; simp at h
      | some pr =>
        obtain ⟨p2, m2, r2⟩ := pr
        rw [hf] at h
        simp only [Option.map_some, Option.map_some', Option.some.injEq, Prod.mk.injEq] at h
        obtain ⟨rfl, rfl, rfl⟩ := h
        rw [show c :: cs = c :: (p2 ++ m2 ++ r2) from by rw [ih p2 m2 r2 hf]]
        rfl

theorem sMidState_alerts (s : AppState) (cid : String) (snap : ChatSession)
    (consumed : Option (List String)) :
    (sMidState s cid snap consumed).alerts = s.alerts := by
  cases consumed with
  | none => rfl
  | some cks =>
    obtain ⟨m, hm⟩ := streamSuccess_shape (optimisticState s cid snap) cid cks
    show (streamSuccess (optimisticState s cid snap) cid cks).alerts = s.alerts
    rw [hm]
    rfl

theorem optimistic_getSession (s : AppState) (cid : String) (snap : ChatSession) :
    getSession (optimisticState s cid snap).chatSessions cid
      = some ⟨snap.id,
              if snap.messages.length = 0 then truncTitle s.inputValue else snap.title,
              snap.messages ++ [{ role := Role.user, text := s.inputValue }]⟩ := by
  simp [optimisticState, getSession_setKey_self]

theorem sMidState_getSession (s : AppState) (cid : String) (snap : ChatSession)
    (consumed : Option (List String)) :
    ∃ tail, getSession (sMidState s cid snap consumed).chatSessions cid
      = some ⟨snap.id,
              if snap.messages.length = 0 then truncTitle s.inputValue else snap.title,
              snap.messages ++ tail⟩ := by
  cases consumed with
  | none =>
    exact ⟨[{ role := Role.user, text := s.inputValue }], optimistic_getSession s cid snap⟩
  | some cks =>
    have hst := streamSuccess_getSession (optimisticState s cid snap) cid _ _ _ cks
      (optimistic_getSession s cid snap)
    exact ⟨[{ role := Role.user, text := s.inputValue },
            { role := Role.model, text := concatAll cks }],
           by simpa [List.append_assoc] using hst⟩

/-- C9: submitting is a no-op that leaves the entire state unchanged whenever
the input is empty or whitespace-only, a request is already in flight
(`isLoading`), or — in chat mode (`handleSendMessage`) — no active chat id is
set: both handlers return before performing any state change or API call. -/
theorem c9_guard_noop (s : AppState) (keyReady : Bool) (outcome : ApiOutcome)
    (origin : String) (bout : BuildOutcome) :
    ((isBlank s.inputValue = true ∨ s.isLoading = true ∨ s.activeChatId = none) →
       handleSendMessage s keyReady outcome = s)
    ∧ ((isBlank s.inputValue = true ∨ s.isLoading = true) →
       handleBuildRequest s keyReady origin bout = s) := by
  constructor
  · intro h
    have hc : isBlank s.inputValue = true ∨ s.isLoading = true
        ∨ optTruthy s.activeChatId = false := by
      rcases h with h | h | h
      · exact Or.inl h
      · exact Or.inr (Or.inl h)
      · exact Or.inr (Or.inr (by rw [h]; rfl))
    unfold handleSendMessage
    rw [if_pos hc]
  · intro h
    unfold handleBuildRequest
    rw [if_pos h]

/-- C9 witness: on a concrete whitespace-only input both handlers change
nothing. -/
theorem c9_witness :
    handleSendMessage { cexState with inputValue := " " } true (ApiOutcome.success ["x"])
      = { cexState with inputValue := " " }
    ∧ handleBuildRequest { cexState with inputValue := " " } true "http://o" (BuildOutcome.success "<p>")
      = { cexState with inputValue := " " } := by
  refine ⟨?_, ?_⟩
  · exact (c9_guard_noop { cexState with inputValue := " " } true (ApiOutcome.success ["x"])
      "http://o" (BuildOutcome.success "<p>")).1 (Or.inl (by decide))
  · exact (c9_guard_noop { cexState with inputValue := " " } true (ApiOutcome.success ["x"])
      "http://o" (BuildOutcome.success "<p>")).2 (Or.inl (by decide))

/-- C10: with an active chat present, `handleThinkingModeChange` (confirmed)
empties the active session's message list and flips the thinking-mode flag,
while leaving the session's id and title, every other session in the map, the
active chat id and the input value unchanged. -/
theorem c10_thinking_clear_frame (s : AppState) (cid : String) (sess : ChatSession)
    (h3 : s.activeChatId = some cid) (h4 : cid.isEmpty = false)
    (h5 : getSession s.chatSessions cid = some sess) :
    getSession (handleThinkingModeChange true s).chatSessions cid
      = some { id := sess.id, title := sess.title, messages := [] }
    ∧ (handleThinkingModeChange true s).thinkingMode = !s.thinkingMode
    ∧ (handleThinkingModeChange true s).activeChatId = s.activeChatId
    ∧ (handleThinkingModeChange true s).inputValue = s.inputValue
    ∧ ∀ k, k ≠ cid → getSession (handleThinkingModeChange true s).chatSessions k
        = getSession s.chatSessions k := by
  have hred : handleThinkingModeChange true s
      = { s with chatSessions := setKey s.chatSessions cid { sess with messages := [] },
                 thinkingMode := !s.thinkingMode } := by
    simp [handleThinkingModeChange, h3, h4, h5]
  rw [hred]
  refine ⟨getSession_setKey_self .., rfl, rfl, rfl, ?_⟩
  intro k hk
  exact getSession_setKey_ne _ _ _ _ hk

/-- C10 witness: concrete instance at `cexState`. -/
theorem c10_witness :
    getSession (handleThinkingModeChange true cexState).chatSessions "1"
      = some { id := cexSession.id, title := cexSession.title, messages := [] }
    ∧ (handleThinkingModeChange true cexState).thinkingMode = !cexState.thinkingMode := by
  have h := c10_thinking_clear_frame cexState "1" cexSession rfl (by decide) (by decide)
  exact ⟨h.1, h.2.1⟩

/-- C8: if the API call in `handleSendMessage` fails with a credential error
(message containing "PERMISSION_DENIED" or "API key not valid"), the chat
state is rolled back atomically: the active session equals its pre-send
snapshot (optimistic user message and model placeholder removed) and the
input field is restored to the submitted text. -/
theorem c8_credential_rollback (s : AppState) (cid : String) (snap : ChatSession)
    (consumed : Option (List String)) (errMsg : String)
    (h1 : isBlank s.inputValue = false) (h2 : s.isLoading = false)
    (h3 : s.activeChatId = some cid) (h4 : cid.isEmpty = false)
    (h5 : getSession s.chatSessions cid = some snap)
    (hcred : credentialError errMsg = true) :
    getSession (handleSendMessage s true (ApiOutcome.failure consumed errMsg)).chatSessions cid
      = some snap
    ∧ (handleSendMessage s true (ApiOutcome.failure consumed errMsg)).inputValue
      = s.inputValue := by
  rw [sendMessage_failure_eq s cid snap consumed errMsg h1 h2 h3 h4 h5]
  unfold sendCatch
  rw [if_pos hcred]
  exact ⟨getSession_setKey_self .., rfl⟩

/-- C8 witness: concrete credential failure at `cexState` restores the
snapshot session and the input text. -/
theorem c8_witness :
    getSession (handleSendMessage cexState true
        (ApiOutcome.failure (some ["p"]) "PERMISSION_DENIED: key rejected")).chatSessions "1"
      = some cexSession
    ∧ (handleSendMessage cexState true
        (ApiOutcome.failure (some ["p"]) "PERMISSION_DENIED: key rejected")).inputValue = "hi" := by
  exact c8_credential_rollback cexState "1" cexSession (some ["p"])
    "PERMISSION_DENIED: key rejected" (by decide) rfl rfl (by decide) (by decide) (by decide)

/-- C6: whenever no request is in flight, the session map is non-empty and an
active chat id is set, the save effect persists under 'chatSessions' the JSON
serialization of the whole session map and under 'activeChatId' the active
session's id. -/
theorem c6_persist_sessions (s : AppState) (st : Store) (cid : String)
    (h2 : s.isLoading = false) (hne : s.chatSessions ≠ [])
    (h3 : s.activeChatId = some cid) (h4 : cid.isEmpty = false) :
    (saveEffect s st).chatSessionsVal = some (serializeSessions s.chatSessions)
    ∧ (saveEffect s st).activeChatIdVal = some cid := by
  have hcond : s.isLoading = false ∧ 0 < s.chatSessions.length
      ∧ optTruthy s.activeChatId = true := by
    refine ⟨h2, List.length_pos.mpr hne, ?_⟩
    rw [h3]
    simp [optTruthy, h4]
  unfold saveEffect
  rw [if_pos hcond]
  exact ⟨rfl, h3⟩

/-- C6 witness: concrete save at `cexState` writes both keys. -/
theorem c6_witness :
    (saveEffect cexState { chatSessionsVal := none, activeChatIdVal := none }).chatSessionsVal
      = some (serializeSessions cexState.chatSessions)
    ∧ (saveEffect cexState { chatSessionsVal := none, activeChatIdVal := none }).activeChatIdVal
      = some "1" := by
  exact c6_persist_sessions cexState { chatSessionsVal := none, activeChatIdVal := none } "1"
    rfl (by decide) rfl (by decide)

/-- C2: after the stream is fully consumed, the text of the last (model)
message of the active session equals the concatenation of the chunks' text
fields in arrival order; and the state after the k-th loop iteration keeps
all preceding messages and differs only in that last message, which holds
the prefix concatenated so far. -/
theorem c2_stream_concat (s : AppState) (cid : String) (snap : ChatSession)
    (chunks : List String)
    (h1 : isBlank s.inputValue = false) (h2 : s.isLoading = false)
    (h3 : s.activeChatId = some cid) (h4 : cid.isEmpty = false)
    (h5 : getSession s.chatSessions cid = some snap) :
    ((getSession (handleSendMessage s true (ApiOutcome.success chunks)).chatSessions cid).map
        ChatSession.messages
      = some (snap.messages ++ [{ role := Role.user, text := s.inputValue },
                                { role := Role.model, text := concatAll chunks }]))
    ∧ ∀ k, (getSession (streamSuccess (optimisticState s cid snap) cid
              (chunks.take k)).chatSessions cid).map ChatSession.messages
        = some (snap.messages ++ [{ role := Role.user, text := s.inputValue },
                                  { role := Role.model, text := concatAll (chunks.take k) }]) := by
  constructor
  · rw [sendMessage_success_eq s cid snap chunks h1 h2 h3 h4 h5]
    have hstream := streamSuccess_getSession (optimisticState s cid snap) cid _ _ _ chunks
      (optimistic_getSession s cid snap)
    show (getSession (streamSuccess (optimisticState s cid snap) cid chunks).chatSessions cid).map
        ChatSession.messages = _
    rw [hstream]
    simp
  · intro k
    have hstream := streamSuccess_getSession (optimisticState s cid snap) cid _ _ _ (chunks.take k)
      (optimistic_getSession s cid snap)
    rw [hstream]
    simp

/-- C2 witness: two concrete chunks "a", "b" end with last message text "ab",
and after one iteration the last message holds "a". -/
theorem c2_witness :
    ((getSession (handleSendMessage cexState true (ApiOutcome.success ["a", "b"])).chatSessions
        "1").map ChatSession.messages
      = some (cexSession.messages ++ [{ role := Role.user, text := cexState.inputValue },
                                      { role := Role.model, text := concatAll ["a", "b"] }]))
    ∧ ((getSession (streamSuccess (optimisticState cexState "1" cexSession) "1"
          (["a", "b"].take 1)).chatSessions "1").map ChatSession.messages
      = some (cexSession.messages ++ [{ role := Role.user, text := cexState.inputValue },
                                      { role := Role.model, text := concatAll (["a", "b"].take 1) }])) := by
  have h := c2_stream_concat cexState "1" cexSession ["a", "b"]
    (by decide) rfl rfl (by decide) (by decide)
  exact ⟨h.1, h.2 1⟩

/-- C3: sending the first message of a session sets the title to the
truncated first user message — the first 30 characters of the message plus
"..." exactly when the message is longer than 30 characters, i.e. the whole
message when it has at most 30 characters — while a session that already has
messages keeps its title unchanged. -/
theorem c3_title_truncation (s : AppState) (cid : String) (snap : ChatSession)
    (chunks : List String)
    (h1 : isBlank s.inputValue = false) (h2 : s.isLoading = false)
    (h3 : s.activeChatId = some cid) (h4 : cid.isEmpty = false)
    (h5 : getSession s.chatSessions cid = some snap) :
    ((getSession (handleSendMessage s true (ApiOutcome.success chunks)).chatSessions cid).map
        ChatSession.title
      = some (if snap.messages.length = 0 then truncTitle s.inputValue else snap.title))
    ∧ (strLength s.inputValue ≤ 30 → truncTitle s.inputValue = s.inputValue)
    ∧ (30 < strLength s.inputValue →
        truncTitle s.inputValue = strTake s.inputValue 30 ++ "...") := by
  refine ⟨?_, ?_, ?_⟩
  · rw [sendMessage_success_eq s cid snap chunks h1 h2 h3 h4 h5]
    have hstream := streamSuccess_getSession (optimisticState s cid snap) cid _ _ _ chunks
      (optimistic_getSession s cid snap)
    show (getSession (streamSuccess (optimisticState s cid snap) cid chunks).chatSessions cid).map
        ChatSession.title = _
    rw [hstream]
    rfl
  · intro hle
    unfold truncTitle
    rw [if_neg (by omega), str_append_empty]
    apply String.ext
    show s.inputValue.data.take 30 = s.inputValue.data
    exact List.take_of_length_le hle
  · intro hgt
    unfold truncTitle
    rw [if_pos hgt]

/-- C3 witness: concrete sends — an empty session gets the truncated title,
`cexSession` (non-empty) keeps its title "t"; a 31-character input is
truncated with "...". -/
theorem c3_witness :
    ((getSession (handleSendMessage cexState true (ApiOutcome.success ["ok"])).chatSessions
        "1").map ChatSession.title
      = some (if cexSession.messages.length = 0 then truncTitle cexState.inputValue
              else cexSession.title))
    ∧ truncTitle "hi" = "hi"
    ∧ truncTitle "abcdefghijklmnopqrstuvwxyz01234" = "abcdefghijklmnopqrstuvwxyz0123" ++ "..." := by
  have h := c3_title_truncation cexState "1" cexSession ["ok"]
    (by decide) rfl rfl (by decide) (by decide)
  refine ⟨h.1, ?_, ?_⟩
  · have h2 := (c3_title_truncation { cexState with inputValue := "hi" } "1" cexSession ["ok"]
      (by decide) rfl rfl (by decide) (by decide)).2.1 (by decide)
    simpa using h2
  · have h3 := (c3_title_truncation
      { cexState with inputValue := "abcdefghijklmnopqrstuvwxyz01234" } "1" cexSession ["ok"]
      (by decide) rfl rfl (by decide) (by decide)).2.2 (by decide)
    rw [show ("abcdefghijklmnopqrstuvwxyz0123" : String)
        = strTake "abcdefghijklmnopqrstuvwxyz01234" 30 from by decide]
    exact h3

theorem appendToSession_alerts (s : AppState) (cid : String) (m : Message) :
    (appendToSession s cid m).alerts = s.alerts := by
  obtain ⟨mp, hmp⟩ := appendToSession_shape s cid m
  rw [hmp]

/-- C1 counterexample: a non-credential API error thrown during
`handleSendMessage` produces no alert at all — the alerts log stays empty —
because the generic branch of the catch block surfaces the error as an
appended chat message instead of a blocking alert dialog. This refutes the
claim that every error is surfaced via a blocking alert dialog. -/
theorem c1_counterexample :
    (handleSendMessage cexState true (ApiOutcome.failure none "network down")).alerts = []
    ∧ (getSession (handleSendMessage cexState true
          (ApiOutcome.failure none "network down")).chatSessions "1").map ChatSession.messages
      = some [{ role := Role.user, text := "old" }, { role := Role.user, text := "hi" },
              { role := Role.model, text := "Sorry, something went wrong. network down" }] := by
  refine ⟨by decide, by decide⟩

/-- C1 (amended): every API error is caught — the handler completes and
resets `isLoading`; credential errors (message containing "PERMISSION_DENIED"
or "API key not valid") are surfaced via a blocking alert dialog in both
`handleSendMessage` and `handleBuildRequest`; every other error is surfaced
via an alert dialog in `handleBuildRequest`, but in `handleSendMessage` it is
surfaced by appending an error message to the conversation and shows no
alert. No retry is attempted: each handler consumes exactly one API
outcome. -/
theorem c1_error_surfacing (s : AppState) (cid : String) (snap : ChatSession)
    (consumed : Option (List String)) (errMsg origin : String)
    (h1 : isBlank s.inputValue = false) (h2 : s.isLoading = false)
    (h3 : s.activeChatId = some cid) (h4 : cid.isEmpty = false)
    (h5 : getSession s.chatSessions cid = some snap) :
    (handleSendMessage s true (ApiOutcome.failure consumed errMsg)).isLoading = false
    ∧ (handleBuildRequest s true origin (BuildOutcome.failure errMsg)).isLoading = false
    ∧ (credentialError errMsg = true →
        (handleSendMessage s true (ApiOutcome.failure consumed errMsg)).alerts
          = s.alerts ++ [apiKeyAlertMsg]
        ∧ (handleBuildRequest s true origin (BuildOutcome.failure errMsg)).alerts
          = s.alerts ++ [apiKeyAlertMsg])
    ∧ (credentialError errMsg = false →
        (handleSendMessage s true (ApiOutcome.failure consumed errMsg)).alerts = s.alerts
        ∧ (∃ pre, (getSession (handleSendMessage s true
              (ApiOutcome.failure consumed errMsg)).chatSessions cid).map ChatSession.messages
            = some (pre ++ [{ role := Role.model,
                              text := "Sorry, something went wrong. " ++ errMsg }]))
        ∧ (handleBuildRequest s true origin (BuildOutcome.failure errMsg)).alerts
          = s.alerts ++ ["Sorry, the build failed: " ++ errMsg]) := by
  rw [sendMessage_failure_eq s cid snap consumed errMsg h1 h2 h3 h4 h5]
  refine ⟨rfl, ?_, ?_, ?_⟩
  · simp [handleBuildRequest, h1, h2]
  · intro hcred
    constructor
    · simp [sendCatch, hcred, sMidState_alerts]
    · simp [handleBuildRequest, h1, h2, hcred]
  · intro hcred
    refine ⟨?_, ?_, ?_⟩
    · simp [sendCatch, hcred, appendToSession_alerts, sMidState_alerts]
    · obtain ⟨tail0, hms⟩ := sMidState_getSession s cid snap consumed
      refine ⟨snap.messages ++ tail0, ?_⟩
      simp [sendCatch, hcred, appendToSession, hms, getSession_setKey_self]
    · simp [handleBuildRequest, h1, h2, hcred]

/-- C1 witness: at `cexState`, a concrete credential error alerts in both
handlers, and a concrete generic build error alerts with the build message. -/
theorem c1_witness :
    (handleSendMessage cexState true
        (ApiOutcome.failure none "API key not valid. Please pass a valid API key.")).alerts
      = cexState.alerts ++ [apiKeyAlertMsg]
    ∧ (handleBuildRequest cexState true "http://o"
        (BuildOutcome.failure "API key not valid. Please pass a valid API key.")).alerts
      = cexState.alerts ++ [apiKeyAlertMsg]
    ∧ (handleBuildRequest cexState true "http://o" (BuildOutcome.failure "boom")).alerts
      = cexState.alerts ++ ["Sorry, the build failed: " ++ "boom"] := by
  have ha := (c1_error_surfacing cexState "1" cexSession none
    "API key not valid. Please pass a valid API key." "http://o"
    (by decide) rfl rfl (by decide) (by decide)).2.2.1 (by decide)
  have hb := (c1_error_surfacing cexState "1" cexSession none "boom" "http://o"
    (by decide) rfl rfl (by decide) (by decide)).2.2.2 (by decide)
  exact ⟨ha.1, ha.2, hb.2.2⟩

/-- C4 counterexample: `handleThinkingModeChange` (confirmed) removes an
existing message — the active session of `cexState` has one message before
and an empty message list after — so not every mutation of a session's
message list only appends at the end. -/
theorem c4_counterexample :
    (getSession cexState.chatSessions "1").map ChatSession.messages
      = some [{ role := Role.user, text := "old" }]
    ∧ (getSession (handleThinkingModeChange true cexState).chatSessions "1").map
        ChatSession.messages = some [] := by
  refine ⟨by decide, by decide⟩

/-- C4 (amended): message lists only grow at the end for `handleNewChat`
(with a fresh id, every existing session's messages are untouched) and for
`handleSendMessage` on success and on non-credential failure (the pre-send
messages stay a prefix, in order); the credential-error branch restores the
pre-send message list exactly; the exception is `handleThinkingModeChange`,
which clears the active session's message list. -/
theorem c4_append_only (s : AppState) (cid : String) (snap : ChatSession)
    (h1 : isBlank s.inputValue = false) (h2 : s.isLoading = false)
    (h3 : s.activeChatId = some cid) (h4 : cid.isEmpty = false)
    (h5 : getSession s.chatSessions cid = some snap) :
    (∀ chunks, (getSession (handleSendMessage s true
          (ApiOutcome.success chunks)).chatSessions cid).map ChatSession.messages
      = some (snap.messages ++ [{ role := Role.user, text := s.inputValue },
                                { role := Role.model, text := concatAll chunks }]))
    ∧ (∀ consumed errMsg, credentialError errMsg = false →
        ∃ tail, (getSession (handleSendMessage s true
            (ApiOutcome.failure consumed errMsg)).chatSessions cid).map ChatSession.messages
          = some (snap.messages ++ tail))
    ∧ (∀ consumed errMsg, credentialError errMsg = true →
        (getSession (handleSendMessage s true
            (ApiOutcome.failure consumed errMsg)).chatSessions cid).map ChatSession.messages
          = some snap.messages)
    ∧ ((getSession (handleThinkingModeChange true s).chatSessions cid).map ChatSession.messages
        = some [])
    ∧ (∀ now : Nat, getSession s.chatSessions (toString now) = none →
        ∀ k, k ≠ toString now →
          getSession (handleNewChat now s).chatSessions k = getSession s.chatSessions k) := by
  refine ⟨?_, ?_, ?_, ?_, ?_⟩
  · intro chunks
    rw [sendMessage_success_eq s cid snap chunks h1 h2 h3 h4 h5]
    have hstream := streamSuccess_getSession (optimisticState s cid snap) cid _ _ _ chunks
      (optimistic_getSession s cid snap)
    show (getSession (streamSuccess (optimisticState s cid snap) cid chunks).chatSessions
        cid).map ChatSession.messages = _
    rw [hstream]
    simp
  · intro consumed errMsg hcred
    obtain ⟨tail0, hms⟩ := sMidState_getSession s cid snap consumed
    refine ⟨tail0 ++ [{ role := Role.model,
                        text := "Sorry, something went wrong. " ++ errMsg }], ?_⟩
    rw [sendMessage_failure_eq s cid snap consumed errMsg h1 h2 h3 h4 h5]
    simp [sendCatch, hcred, appendToSession, hms, getSession_setKey_self]
  · intro consumed errMsg hcred
    rw [sendMessage_failure_eq s cid snap consumed errMsg h1 h2 h3 h4 h5]
    simp [sendCatch, hcred, getSession_setKey_self]
  · have hred : handleThinkingModeChange true s
        = { s with chatSessions := setKey s.chatSessions cid { snap with messages := [] },
                   thinkingMode := !s.thinkingMode } := by
      simp [handleThinkingModeChange, h3, h4, h5]
    rw [hred]
    simp [getSession_setKey_self]
  · intro now hfresh k hk
    show getSession (setKey s.chatSessions (toString now) (newChatSession (toString now))) k = _
    exact getSession_setKey_ne _ _ _ _ hk

/-- C4 witness: concrete success send appends exactly two messages to the
snapshot; concrete mode change clears. -/
theorem c4_witness :
    ((getSession (handleSendMessage cexState true (ApiOutcome.success ["a"])).chatSessions
        "1").map ChatSession.messages
      = some (cexSession.messages ++ [{ role := Role.user, text := cexState.inputValue },
                                      { role := Role.model, text := concatAll ["a"] }]))
    ∧ ((getSession (handleThinkingModeChange true cexState).chatSessions "1").map
        ChatSession.messages = some []) := by
  have h := c4_append_only cexState "1" cexSession (by decide) rfl rfl (by decide) (by decide)
  exact ⟨h.1 ["a"], h.2.2.2.1⟩

/-- C5 counterexample: two `handleNewChat` invocations can draw the same
timestamp — `Date.now()` has millisecond resolution and is not checked for
freshness — and then the new session's id equals an existing key, so the
existing session (here holding one message under key "1") is overwritten by
the fresh empty session. -/
theorem c5_counterexample :
    getSession cexState.chatSessions "1" = some cexSession
    ∧ getSession (handleNewChat 1 cexState).chatSessions "1" = some (newChatSession "1")
    ∧ newChatSession "1" ≠ cexSession := by
  refine ⟨by decide, by decide, by decide⟩

/-- C5 (amended): provided the timestamp rendered as a string is not already
a key of the session map, `handleNewChat` appends the new session at the end,
preserves every existing session, and keeps the keys unique if they were
unique. -/
theorem c5_fresh_id_no_overwrite (s : AppState) (now : Nat)
    (hfresh : getSession s.chatSessions (toString now) = none) :
    (handleNewChat now s).chatSessions
      = s.chatSessions ++ [(toString now, newChatSession (toString now))]
    ∧ ((s.chatSessions.map Prod.fst).Nodup →
        ((handleNewChat now s).chatSessions.map Prod.fst).Nodup)
    ∧ (∀ k, k ≠ toString now →
        getSession (handleNewChat now s).chatSessions k = getSession s.chatSessions k) := by
  have heq : (handleNewChat now s).chatSessions
      = setKey s.chatSessions (toString now) (newChatSession (toString now)) := rfl
  refine ⟨?_, ?_, ?_⟩
  · rw [heq, setKey_of_getSession_none _ _ _ hfresh]
  · intro hnd
    rw [heq, setKey_of_getSession_none _ _ _ hfresh]
    have hnm := getSession_none_not_mem _ _ hfresh
    simp [List.nodup_append, hnd, hnm]
  · intro k hk
    rw [heq]
    exact getSession_setKey_ne _ _ _ _ hk

/-- C5 witness: creating a chat at the fresh timestamp 2 appends it, keeps
the existing session, and the keys stay unique. -/
theorem c5_witness :
    (handleNewChat 2 cexState).chatSessions
      = cexState.chatSessions ++ [(toString 2, newChatSession (toString 2))]
    ∧ ((handleNewChat 2 cexState).chatSessions.map Prod.fst).Nodup
    ∧ getSession (handleNewChat 2 cexState).chatSessions "1" = getSession cexState.chatSessions "1" := by
  have h := c5_fresh_id_no_overwrite cexState 2 (by decide)
  exact ⟨h.1, h.2.1 (by decide), h.2.2 "1" (by decide)⟩

/-- C7 counterexample: for the successful build response "hello" — which
contains neither '<base href' nor any `<head` tag — the preview document is
set to the HTML unchanged and no `<base href>` element is inserted, although
the HTML contains no '<base href'; so insertion does not happen "exactly
when" the HTML lacks '<base href'. -/
theorem c7_counterexample :
    (handleBuildRequest cexState true "http://origin.example"
        (BuildOutcome.success "hello")).previewSrcDoc = some "hello"
    ∧ containsSubstr "hello" "<base href" = false
    ∧ containsSubstr "hello" "<base" = false := by
  refine ⟨by decide, by decide, by decide⟩

/-- C7 (amended): in build mode, for every non-blank input and successful
response, `handleBuildRequest` sets `showPreview` to true and sets the
preview document to the returned HTML, into which a `<base href>` element is
inserted immediately after the opening `<head ...>` tag exactly when the HTML
contains no '<base href' AND contains an opening `<head>` tag (leftmost match
of `<head\b[^>]*>`); otherwise the HTML is used unchanged. -/
theorem c7_preview_render (s : AppState) (origin html : String)
    (h1 : isBlank s.inputValue = false) (h2 : s.isLoading = false) :
    (handleBuildRequest s true origin (BuildOutcome.success html)).showPreview = true
    ∧ (handleBuildRequest s true origin (BuildOutcome.success html)).previewSrcDoc
        = some (insertBaseHref html (baseTag origin))
    ∧ (containsSubstr html "<base href" = true → insertBaseHref html (baseTag origin) = html)
    ∧ (containsSubstr html "<base href" = false → findHead html.data = none →
        insertBaseHref html (baseTag origin) = html)
    ∧ (∀ pre m rest, containsSubstr html "<base href" = false →
        findHead html.data = some (pre, m, rest) →
        html.data = pre ++ m ++ rest
        ∧ (insertBaseHref html (baseTag origin)).data
            = pre ++ m ++ (baseTag origin).data ++ rest) := by
  refine ⟨?_, ?_, ?_, ?_, ?_⟩
  · simp [handleBuildRequest, h1, h2]
  · simp [handleBuildRequest, h1, h2]
  · intro hc
    simp [insertBaseHref, hc]
  · intro hc hf
    simp only [insertBaseHref, hc, Bool.false_eq_true, if_false]
    unfold replaceHead
    rw [hf]
  · intro pre m rest hc hf
    refine ⟨findHead_eq _ _ _ _ hf, ?_⟩
    simp only [insertBaseHref, hc, Bool.false_eq_true, if_false]
    show replaceHead html.data (baseTag origin).data = _
    unfold replaceHead
    rw [hf]

/-- C7 witness: concrete build of "<head><p>" shows the preview and the
inserted base element lands right after the `<head>` tag. -/
theorem c7_witness :
    (handleBuildRequest cexState true "http://o"
        (BuildOutcome.success "<head><p>")).showPreview = true
    ∧ (handleBuildRequest cexState true "http://o"
        (BuildOutcome.success "<head><p>")).previewSrcDoc
      = some (insertBaseHref "<head><p>" (baseTag "http://o")) := by
  have h := c7_preview_render cexState "http://o" "<head><p>" (by decide) rfl
  exact ⟨h.1, h.2.1⟩

end GeminiAssistant
